import Mathlib

/-!
Verification development for the Mojo VS Code extension's SDK-resolution core
(`pyenv.ts`) and formatter provider (`formatter.ts`).

The TypeScript code is shallowly embedded as pure Lean functions.  External
effects (the VS Code filesystem API, the Python extension, subprocess
invocations) are modelled by a `World` of oracles: each external query is a
field of `World`, and every observable action the code performs (filesystem
stat, config read, environment query, error dialog, change-event fire,
descriptor-construction attempt, subprocess invocation) is recorded in an
event list so that theorems can speak about which effects happened and in
which order.  The manager's mutable fields (`displayedSDKError`,
`lastLoadedEnv`, `activeSDK`) are threaded explicitly as `MgrState`.
-/

namespace VscodeMojo

/-- Kind of SDK, from `enum SDKKind` in pyenv.ts. -/
inductive SDKKind
  | environment
  | custom
  | internal
deriving DecidableEq, Repr

/-- Observable effects of the embedded code, in execution order. -/
inductive Ev
  /-- a `vscode.workspace.fs.stat` (or `fileExists`) query at the given path. -/
  | statQuery (target : String)
  /-- reading `modular.cfg` at the given path (`vscode.workspace.fs.readFile`). -/
  | readCfg (target : String)
  /-- querying the Python extension for the active environment
  (`getActiveEnvironmentPath` / `resolveEnvironment`). -/
  | envQuery
  /-- a user-visible error dialog (`vscode.window.showErrorMessage`). -/
  | dialog
  /-- firing the environment-change emitter (`envChangeEmitter.fire`). -/
  | fire
  /-- entering `createSDKFromHomePath` with the given kind and home path. -/
  | homeConstruct (kind : SDKKind) (homePath : String)
  /-- entering `createSDKFromWheelEnv`. -/
  | wheelConstruct
  /-- invoking `"<mojo>" --version` on the given executable. -/
  | execVersion (exe : String)
  /-- invoking the LLDB executable with `-b -o "script print(100+1)"`. -/
  | lldbProbe (exe : String)
deriving DecidableEq, Repr

/-- The seven required path values read from the `[mojo-max]` section of
`modular.cfg`.  Each is an `Option` because in JavaScript an absent object
property reads as `undefined` without raising: `config['mojo-max'][key]`
yields `undefined` when `key` is missing while the section itself exists. -/
structure HomePaths where
  lsp_server_path : Option String
  mblack_path : Option String
  lldb_plugin_path : Option String
  lldb_vscode_path : Option String
  driver_path : Option String
  lldb_visualizers_path : Option String
  lldb_path : Option String
deriving DecidableEq, Repr

/-- A resolved SDK descriptor.  `base` embeds class `SDK` (wheel-based
construction passes existence-checked `string`s); `home` embeds the subclass
`HomeSDK` whose path arguments come from `modular.cfg` property reads and so
may be `undefined` at runtime (hence `HomePaths` with `Option` fields). -/
inductive SDK
  | base (kind : SDKKind) (version lspPath mblackPath lldbPluginPath dapPath
      mojoPath visualizersPath lldbPath : String)
  | home (kind : SDKKind) (version homePath : String) (paths : HomePaths)
      (prefixPath : Option String)
deriving DecidableEq, Repr

/-- The `kind` field of either descriptor shape. -/
def SDK.kindOf : SDK → SDKKind
  | .base k _ _ _ _ _ _ _ _ => k
  | .home k _ _ _ _ => k

/-- The `version` field of either descriptor shape. -/
def SDK.versionOf : SDK → String
  | .base _ v _ _ _ _ _ _ _ => v
  | .home _ v _ _ _ => v

/-- The `supportsFileDebug` field: `false` on the base class, overridden to
`true` on `HomeSDK`. -/
def SDK.supportsFileDebug : SDK → Bool
  | .base .. => false
  | .home .. => true

/-- Embeds `SDK.getProcessEnv` / `HomeSDK.getProcessEnv`.  The result models
the returned JavaScript object as an association list; a value of `none`
models a property that is present but `undefined` (as happens for
`CONDA_PREFIX` when `prefixPath` was not provided). -/
def SDK.getProcessEnv : SDK → Bool → List (String × Option String)
  | .base .., withTelemetry =>
      [("MODULAR_TELEMETRY_ENABLED", some (if withTelemetry then "true" else "false"))]
  | .home _ _ homePath _ prefixPath, withTelemetry =>
      [("MODULAR_TELEMETRY_ENABLED", some (if withTelemetry then "true" else "false")),
       ("MODULAR_HOME", some homePath),
       ("CONDA_PREFIX", prefixPath)]

/-- One section of an INI file: ordered key/value pairs. -/
abbrev IniSection := List (String × String)

/-- Result of `ini.parse`: ordered named sections. -/
abbrev IniConfig := List (String × IniSection)

/-- Property read on a parsed config object: `config[name]` for a section. -/
def getSection (c : IniConfig) (name : String) : Option IniSection :=
  (c.find? (fun kv => kv.1 == name)).map (·.2)

/-- Property read inside a section object: `section[key]`. -/
def lookupKey (sec : IniSection) (key : String) : Option String :=
  (sec.find? (fun kv => kv.1 == key)).map (·.2)

/-- Outcome of reading and parsing `modular.cfg`: the three failure stages of
`createSDKFromHomePath` (readFile throws, TextDecoder throws, ini.parse
throws) or the parsed config. -/
inductive CfgRead
  | readErr
  | decodeErr
  | parseErr
  | parsed (config : IniConfig)
deriving DecidableEq, Repr

/-- A `ResolvedEnvironment` from the Python extension, reduced to the fields
the code reads: `executable.sysPrefix` and `version.major/minor`. -/
structure EnvRecord where
  sysPrefixPath : String
  versionMajor : Nat
  versionMinor : Nat
deriving DecidableEq, Repr

/-- The external world the manager runs against.

* `workspaceFolders` — `vscode.workspace.workspaceFolders` (possibly absent);
* `stat p` — `vscode.workspace.fs.stat(p)`: `none` if stat throws, otherwise
  `some isDirectory` (whether the `FileType.Directory` bit is set);
* `fileExistsAt p` — the `fileExists` utility used by `envHasModularCfg`;
* `readCfgAt p` — reading, decoding and ini-parsing the file at `p`;
* `activeEnvPath` — `api.environments.getActiveEnvironmentPath().path`;
* `resolveEnv` — `api.environments.resolveEnvironment(...)`;
* `platform` — `process.platform`;
* `execVersionStdout exe` — stdout of `exec('"<exe>" --version')`;
* `lldbExec exe` — `execFile(exe, ['-b','-o','script print(100+1)'])`:
  `none` if it throws, otherwise `some (stdout, stderr)`. -/
structure World where
  workspaceFolders : Option (List String)
  stat : String → Option Bool
  fileExistsAt : String → Bool
  readCfgAt : String → CfgRead
  activeEnvPath : String
  resolveEnv : Option EnvRecord
  platform : String
  execVersionStdout : String → String
  lldbExec : String → Option (String × String)

/-- The mutable fields of `PythonEnvironmentManager`. -/
structure MgrState where
  displayedSDKError : Bool
  lastLoadedEnv : Option String
  activeSDK : Option SDK
deriving DecidableEq, Repr

/-- Resolve `..` segments left to right, as node path normalisation does. -/
def collapseDots : List String → List String → List String
  | acc, [] => acc.reverse
  | acc, seg :: rest =>
    if seg = ".." then
      match acc with
      | [] => collapseDots [".."] rest
      | top :: tl =>
        if top = ".." then collapseDots (".." :: acc) rest else collapseDots tl rest
    else collapseDots (seg :: acc) rest

/-- Split a character sequence on `/`, accumulating the current segment in
reverse. -/
def splitSlashAux : List Char → List Char → List String
  | [], cur => [String.mk cur.reverse]
  | c :: rest, cur =>
      if c = '/' then String.mk cur.reverse :: splitSlashAux rest []
      else splitSlashAux rest (c :: cur)

/-- Join segments with `/` separators. -/
def joinSegsWithSlash : List String → String
  | [] => ""
  | [s] => s
  | s :: rest => s ++ "/" ++ joinSegsWithSlash rest

/-- Model of node `path.join` (and `vscode.Uri.joinPath`): join the parts
with `/` and normalise empty, `.` and `..` segments. -/
def pathJoin (parts : List String) : String :=
  let segs := ((parts.map (fun p => splitSlashAux p.toList [])).flatten).filter
    (fun s => s != "" && s != ".")
  let isAbs := match parts with
    | p :: _ => p.toList.headD ' ' == '/'
    | [] => false
  (if isAbs then "/" else "") ++ joinSegsWithSlash (collapseDots [] segs)

/-- Embeds `displaySDKError`: show the dialog only if none was shown since
the last reset of `displayedSDKError`, then latch the flag. -/
def displaySDKError (s : MgrState) : MgrState × List Ev :=
  if s.displayedSDKError then (s, [])
  else ({ s with displayedSDKError := true }, [Ev.dialog])

/-- Embeds `handleEnvironmentChange`: on `newEnv != this.lastLoadedEnv`
(JavaScript loose inequality between a string and `string | undefined`,
i.e. `some newEnv ≠ lastLoadedEnv`) fire the change emitter and reset
`displayedSDKError`; otherwise do nothing.  No other field is touched. -/
def handleEnvironmentChange (s : MgrState) (newEnv : String) : MgrState × List Ev :=
  if some newEnv ≠ s.lastLoadedEnv then
    ({ s with displayedSDKError := false }, [Ev.fire])
  else (s, [])

/-- Path of `modular.cfg` under a home path. -/
def homeCfgPath (homePath : String) : String := pathJoin [homePath, "modular.cfg"]

/-- Events of entering `createSDKFromHomePath` and reading its config file. -/
def homeEv (kind : SDKKind) (homePath : String) : List Ev :=
  [Ev.homeConstruct kind homePath, Ev.readCfg (homeCfgPath homePath)]

/-- Embeds `createSDKFromHomePath`.  Read/decode/parse failures each report
an error (deduplicated by `displaySDKError`) and return `undefined`.  In the
final `try` block, `config.max` and `config['mojo-max']` being absent makes
the property access throw a TypeError, caught by the `catch` which reports an
error and returns `undefined`; but an individual key absent from an existing
`[mojo-max]` section merely reads as `undefined`, so the `HomeSDK` is still
constructed, with that path field unset.  The telemetry `sdkLoaded` event is
an external reporter call with no effect on this state. -/
def createSDKFromHomePath (w : World) (kind : SDKKind) (homePath : String)
    (prefixPath : Option String) (s : MgrState) : Option SDK × MgrState × List Ev :=
  match w.readCfgAt (homeCfgPath homePath) with
  | .readErr =>
      (none, (displaySDKError s).1, homeEv kind homePath ++ (displaySDKError s).2)
  | .decodeErr =>
      (none, (displaySDKError s).1, homeEv kind homePath ++ (displaySDKError s).2)
  | .parseErr =>
      (none, (displaySDKError s).1, homeEv kind homePath ++ (displaySDKError s).2)
  | .parsed config =>
      match getSection config "max" with
      | none =>
          (none, (displaySDKError s).1, homeEv kind homePath ++ (displaySDKError s).2)
      | some maxSec =>
          match getSection config "mojo-max" with
          | none =>
              (none, (displaySDKError s).1, homeEv kind homePath ++ (displaySDKError s).2)
          | some sec =>
              (some (SDK.home kind ((lookupKey maxSec "version").getD "0.0.0") homePath
                { lsp_server_path := lookupKey sec "lsp_server_path"
                  mblack_path := lookupKey sec "mblack_path"
                  lldb_plugin_path := lookupKey sec "lldb_plugin_path"
                  lldb_vscode_path := lookupKey sec "lldb_vscode_path"
                  driver_path := lookupKey sec "driver_path"
                  lldb_visualizers_path := lookupKey sec "lldb_visualizers_path"
                  lldb_path := lookupKey sec "lldb_path" }
                prefixPath), s, homeEv kind homePath)

/-- The `bin` directory of a wheel-style environment. -/
def wheelBinPath (env : EnvRecord) : String := pathJoin [env.sysPrefixPath, "bin"]

/-- The `modular/lib` directory of a wheel-style environment. -/
def wheelLibPath (env : EnvRecord) : String :=
  pathJoin [env.sysPrefixPath, "lib",
    "python" ++ toString env.versionMajor ++ "." ++ toString env.versionMinor,
    "site-packages", "modular", "lib"]

/-- Platform-dependent shared-library extension: `dylib` on darwin, `so`
otherwise. -/
def wheelLibExt (w : World) : String := if w.platform == "darwin" then "dylib" else "so"

/-- The eight paths `createSDKFromWheelEnv` retrieves, in retrieval order:
mojo, mojo-lsp-server, the platform-suffixed LLDB plugin, mblack, lldb-dap,
the visualizers directory, mojo-lldb, and the raw (unwrapped) mojo. -/
def wheelTargets (w : World) (env : EnvRecord) : List String :=
  [pathJoin [wheelBinPath env, "mojo"],
   pathJoin [wheelBinPath env, "mojo-lsp-server"],
   pathJoin [wheelLibPath env, "libMojoLLDB." ++ wheelLibExt w],
   pathJoin [wheelBinPath env, "mblack"],
   pathJoin [wheelBinPath env, "lldb-dap"],
   pathJoin [wheelLibPath env, "lldb-visualizers"],
   pathJoin [wheelBinPath env, "mojo-lldb"],
   pathJoin [wheelLibPath env, "..", "bin", "mojo"]]

/-- Events of `createSDKFromWheelEnv`'s retrieval phase: one stat per target. -/
def wheelEvs (w : World) (env : EnvRecord) : List Ev :=
  Ev.wheelConstruct :: (wheelTargets w env).map Ev.statQuery

/-- Embeds `createSDKFromWheelEnv`.  Each `retrievePath` stats its target and
yields the path when the stat succeeds.  The guard is the negation of the
source's `!mojoPath || !lspPath || !lldbPluginPath || !rawMojoPath ||
!mblackPath || !lldbPluginPath || !dapPath || !visualizerPath || !lldbPath`
(the source checks the plugin path twice; the duplicate is kept).  When all
paths exist, the version is the stdout of invoking the mojo executable with
`--version`.  No error dialog is shown on failure. -/
def createSDKFromWheelEnv (w : World) (env : EnvRecord) : Option SDK × List Ev :=
  if (w.stat (pathJoin [wheelBinPath env, "mojo"])).isSome
      && (w.stat (pathJoin [wheelBinPath env, "mojo-lsp-server"])).isSome
      && (w.stat (pathJoin [wheelLibPath env, "libMojoLLDB." ++ wheelLibExt w])).isSome
      && (w.stat (pathJoin [wheelLibPath env, "..", "bin", "mojo"])).isSome
      && (w.stat (pathJoin [wheelBinPath env, "mblack"])).isSome
      && (w.stat (pathJoin [wheelLibPath env, "libMojoLLDB." ++ wheelLibExt w])).isSome
      && (w.stat (pathJoin [wheelBinPath env, "lldb-dap"])).isSome
      && (w.stat (pathJoin [wheelLibPath env, "lldb-visualizers"])).isSome
      && (w.stat (pathJoin [wheelBinPath env, "mojo-lldb"])).isSome
  then
    (some (SDK.base SDKKind.environment
        (w.execVersionStdout (pathJoin [wheelBinPath env, "mojo"]))
        (pathJoin [wheelBinPath env, "mojo-lsp-server"])
        (pathJoin [wheelBinPath env, "mblack"])
        (pathJoin [wheelLibPath env, "libMojoLLDB." ++ wheelLibExt w])
        (pathJoin [wheelBinPath env, "lldb-dap"])
        (pathJoin [wheelBinPath env, "mojo"])
        (pathJoin [wheelLibPath env, "lldb-visualizers"])
        (pathJoin [wheelBinPath env, "mojo-lldb"])),
     wheelEvs w env ++ [Ev.execVersion (pathJoin [wheelBinPath env, "mojo"])])
  else (none, wheelEvs w env)

/-- The hidden monorepo subdirectory under the single workspace root. -/
def monorepoFolder (f : String) : String := pathJoin [f, ".derived"]

/-- Embeds `tryGetMonorepoSDK`: applicable only when exactly one workspace
folder is open; stat the `.derived` subfolder; a stat exception or a
non-directory resolves `undefined` silently; a directory delegates to
`createSDKFromHomePath` with kind `Internal` and no prefix path. -/
def tryGetMonorepoSDK (w : World) (s : MgrState) : Option SDK × MgrState × List Ev :=
  match w.workspaceFolders with
  | none => (none, s, [])
  | some [f] =>
      match w.stat (monorepoFolder f) with
      | none => (none, s, [Ev.statQuery (monorepoFolder f)])
      | some isDir =>
          if isDir then
            ((createSDKFromHomePath w SDKKind.internal (monorepoFolder f) none s).1,
             (createSDKFromHomePath w SDKKind.internal (monorepoFolder f) none s).2.1,
             Ev.statQuery (monorepoFolder f)
               :: (createSDKFromHomePath w SDKKind.internal (monorepoFolder f) none s).2.2)
          else (none, s, [Ev.statQuery (monorepoFolder f)])
  | some _ => (none, s, [])

/-- Records `this.lastLoadedEnv = envPath.path` (line 198 of pyenv.ts). -/
def noteEnvLoaded (w : World) (s : MgrState) : MgrState :=
  { s with lastLoadedEnv := some w.activeEnvPath }

/-- The `modular.cfg` probe location used by `envHasModularCfg`. -/
def envCfgProbePath (env : EnvRecord) : String :=
  pathJoin [env.sysPrefixPath, "share", "max", "modular.cfg"]

/-- The home path passed to `createSDKFromHomePath` for a Conda-like env. -/
def envHomePath (env : EnvRecord) : String :=
  pathJoin [env.sysPrefixPath, "share", "max"]

/-- Embeds the active-environment part of `findActiveSDK` (lines 195-228):
query the active environment path, record it in `lastLoadedEnv`, resolve the
environment; if unresolvable, report an error and return `undefined`
(terminal — no construction is attempted); otherwise branch on the presence
of `modular.cfg` between home-path and wheel construction. -/
def findActiveSDKEnvPart (w : World) (s0 : MgrState) : Option SDK × MgrState × List Ev :=
  match w.resolveEnv with
  | none =>
      (none, (displaySDKError (noteEnvLoaded w s0)).1,
       Ev.envQuery :: (displaySDKError (noteEnvLoaded w s0)).2)
  | some env =>
      if w.fileExistsAt (envCfgProbePath env) then
        ((createSDKFromHomePath w SDKKind.environment (envHomePath env)
            (some env.sysPrefixPath) (noteEnvLoaded w s0)).1,
         (createSDKFromHomePath w SDKKind.environment (envHomePath env)
            (some env.sysPrefixPath) (noteEnvLoaded w s0)).2.1,
         Ev.envQuery :: Ev.statQuery (envCfgProbePath env)
           :: (createSDKFromHomePath w SDKKind.environment (envHomePath env)
                (some env.sysPrefixPath) (noteEnvLoaded w s0)).2.2)
      else
        ((createSDKFromWheelEnv w env).1, noteEnvLoaded w s0,
         Ev.envQuery :: Ev.statQuery (envCfgProbePath env)
           :: (createSDKFromWheelEnv w env).2)

/-- Embeds `findActiveSDK`: prioritize the monorepo SDK; only when it is
absent fall through to the active-environment part. -/
def findActiveSDK (w : World) (s : MgrState) : Option SDK × MgrState × List Ev :=
  match (tryGetMonorepoSDK w s).1 with
  | some sdk => (some sdk, (tryGetMonorepoSDK w s).2.1, (tryGetMonorepoSDK w s).2.2)
  | none =>
      ((findActiveSDKEnvPart w (tryGetMonorepoSDK w s).2.1).1,
       (findActiveSDKEnvPart w (tryGetMonorepoSDK w s).2.1).2.1,
       (tryGetMonorepoSDK w s).2.2
         ++ (findActiveSDKEnvPart w (tryGetMonorepoSDK w s).2.1).2.2)

/-- Embeds `getActiveSDK`: return the cached descriptor when present,
otherwise resolve and cache the result (also caching `undefined`). -/
def getActiveSDK (w : World) (s : MgrState) : Option SDK × MgrState × List Ev :=
  match s.activeSDK with
  | some sdk => (some sdk, s, [])
  | none =>
      ((findActiveSDK w s).1,
       { (findActiveSDK w s).2.1 with activeSDK := (findActiveSDK w s).1 },
       (findActiveSDK w s).2.2)

/-- Containment of one character sequence in another (at any position). -/
def listContainsSeq (sub : List Char) : List Char → Bool
  | [] => sub.isEmpty
  | c :: rest => sub.isPrefixOf (c :: rest) || listContainsSeq sub rest

/-- JavaScript `s.indexOf(sub) != -1` as substring containment. -/
def strContainsSub (s sub : String) : Bool := listContainsSeq sub.toList s.toList

/-- One raw run of the LLDB scripting probe: `false` when the invocation
throws, otherwise whether `'101'` occurs in the captured stdout. -/
def lldbProbeResult (w : World) (lldbExePath : String) : Bool :=
  match w.lldbExec lldbExePath with
  | none => false
  | some (stdout, _) => strContainsSub stdout "101"

/-- Embeds `lldbHasPythonScriptingSupport` with its `@Memoize()` decorator:
the per-instance cache is threaded explicitly; a cached result is returned
without invoking the subprocess again. -/
def lldbHasPythonScriptingSupport (w : World) (lldbExePath : String)
    (cache : Option Bool) : Bool × Option Bool × List Ev :=
  match cache with
  | some b => (b, some b, [])
  | none =>
      (lldbProbeResult w lldbExePath, some (lldbProbeResult w lldbExePath),
       [Ev.lldbProbe lldbExePath])

/-- Repeated fatal resolution failures within an epoch: each failure routes
through `displaySDKError`.  Returns the final state and the number of
dialogs actually shown. -/
def runFails : MgrState → Nat → MgrState × Nat
  | s, 0 => (s, 0)
  | s, n + 1 =>
      ((runFails (displaySDKError s).1 n).1,
       (displaySDKError s).2.count Ev.dialog + (runFails (displaySDKError s).1 n).2)

/-- Outcome of the `execFile` callback in the formatter: `failed` when
`error` is non-null, otherwise the captured stdout/stderr. -/
inductive ExecOutcome
  | failed (stderr : String)
  | ok (stdout stderr : String)
deriving DecidableEq, Repr

/-- Embeds the body of `provideDocumentFormattingEdits`'s `execFile`
callback (formatter.ts): `none` models rejecting the promise on a process
error; otherwise the resolved `TextEdit` list, each edit represented by its
replacement text for the whole-document range computed by the source.  A
non-empty document with empty formatter output resolves with no edits. -/
def provideDocumentFormattingEdits (docText : String) (r : ExecOutcome) :
    Option (List String) :=
  match r with
  | .failed _ => none
  | .ok stdout _ =>
      if docText.length > 0 ∧ stdout.length = 0 then some []
      else some [stdout]

/-! Concrete instances used by closed evaluation theorems and witnesses. -/

/-- A concrete wheel-style descriptor. -/
def sdkA : SDK :=
  SDK.base SDKKind.environment "v1" "/b/lsp" "/b/mblack" "/b/plugin" "/b/dap"
    "/b/mojo" "/b/viz" "/b/lldb"

/-- A `[mojo-max]` section holding all seven required keys. -/
def fullHomeSection : IniSection :=
  [("lsp_server_path", "/t/lsp"), ("mblack_path", "/t/mblack"),
   ("lldb_plugin_path", "/t/plugin"), ("lldb_vscode_path", "/t/dap"),
   ("driver_path", "/t/mojo"), ("lldb_visualizers_path", "/t/viz"),
   ("lldb_path", "/t/lldb")]

/-- A well-formed parsed config. -/
def cfgFull : IniConfig :=
  [("max", [("version", "9.9")]), ("mojo-max", fullHomeSection)]

/-- A well-formed parsed config whose `[mojo-max]` section exists but lacks
the required key `lsp_server_path`. -/
def cfgMissingLsp : IniConfig :=
  [("max", [("version", "1.2.3")]),
   ("mojo-max",
    [("mblack_path", "/t/mblack"), ("lldb_plugin_path", "/t/plugin"),
     ("lldb_vscode_path", "/t/dap"), ("driver_path", "/t/mojo"),
     ("lldb_visualizers_path", "/t/viz"), ("lldb_path", "/t/lldb")])]

/-- A bare world: no workspace, no files, no resolvable environment. -/
def wBase : World :=
  { workspaceFolders := none
    stat := fun _ => none
    fileExistsAt := fun _ => false
    readCfgAt := fun _ => CfgRead.readErr
    activeEnvPath := "/envs/a"
    resolveEnv := none
    platform := "linux"
    execVersionStdout := fun _ => "mojo 25.1.0"
    lldbExec := fun _ => none }

/-- A world with a single workspace root holding a valid monorepo SDK. -/
def wMono : World :=
  { wBase with
    workspaceFolders := some ["/ws"]
    stat := fun p => if p = "/ws/.derived" then some true else none
    readCfgAt := fun p =>
      if p = "/ws/.derived/modular.cfg" then CfgRead.parsed cfgFull else CfgRead.readErr }

/-- A world whose home-path config file parses but misses one required key. -/
def wC2 : World :=
  { wBase with readCfgAt := fun _ => CfgRead.parsed cfgMissingLsp }

/-- A world in which every stat succeeds (complete wheel layout). -/
def wWheel : World :=
  { wBase with stat := fun _ => some true }

/-- A concrete resolved environment record. -/
def envC : EnvRecord := { sysPrefixPath := "/venv", versionMajor := 3, versionMinor := 12 }

/-- Fresh manager state, as after construction. -/
def mgrInit : MgrState :=
  { displayedSDKError := false, lastLoadedEnv := none, activeSDK := none }

/-- Manager state holding a cached descriptor. -/
def mgrCached : MgrState :=
  { displayedSDKError := false, lastLoadedEnv := some "/envs/a", activeSDK := some sdkA }

/-- The monorepo descriptor resolved in `wMono`. -/
def sdkMono : SDK :=
  SDK.home SDKKind.internal "9.9" "/ws/.derived"
    { lsp_server_path := some "/t/lsp", mblack_path := some "/t/mblack",
      lldb_plugin_path := some "/t/plugin", lldb_vscode_path := some "/t/dap",
      driver_path := some "/t/mojo", lldb_visualizers_path := some "/t/viz",
      lldb_path := some "/t/lldb" } none

/-- The events of the monorepo resolution in `wMono`. -/
def evsMono : List Ev :=
  [Ev.statQuery "/ws/.derived", Ev.homeConstruct SDKKind.internal "/ws/.derived",
   Ev.readCfg "/ws/.derived/modular.cfg"]

/-! Helper lemmas about the embedded operations. -/

/-- Characterisation of `displaySDKError` on each flag value. -/
theorem displaySDKError_cases (s : MgrState) :
    displaySDKError s = (s, [])
      ∨ displaySDKError s = ({ s with displayedSDKError := true }, [Ev.dialog]) := by
  unfold displaySDKError
  split
  · exact Or.inl rfl
  · exact Or.inr rfl

/-- A descriptor produced by `createSDKFromHomePath` carries the kind it was
asked for. -/
theorem createSDKFromHomePath_kind (w : World) (kk : SDKKind) (hp : String)
    (pp : Option String) (s : MgrState) (sdk : SDK)
    (h : (createSDKFromHomePath w kk hp pp s).1 = some sdk) :
    sdk.kindOf = kk := by
  rcases hcr : createSDKFromHomePath w kk hp pp s with ⟨ro, so, eo⟩
  rw [hcr] at h
  simp only at h
  unfold createSDKFromHomePath at hcr
  split at hcr <;>
    [skip; skip; skip;
     (split at hcr <;>
       [skip; (split at hcr <;> [skip; skip])])] <;>
    simp only [Prod.mk.injEq] at hcr <;>
    obtain ⟨h1, -, -⟩ := hcr <;>
    rw [← h1] at h
  case _ => exact absurd h (by simp)
  case _ => exact absurd h (by simp)
  case _ => exact absurd h (by simp)
  case _ => exact absurd h (by simp)
  case _ => exact absurd h (by simp)
  case _ =>
    obtain rfl : _ = sdk := Option.some.inj h
    rfl

/-- Every event emitted by `createSDKFromHomePath` is its construction
marker, its config read, or an error dialog. -/
theorem createSDKFromHomePath_ev (w : World) (kk : SDKKind) (hp : String)
    (pp : Option String) (s : MgrState) :
    ∀ e ∈ (createSDKFromHomePath w kk hp pp s).2.2,
      e = Ev.homeConstruct kk hp ∨ e = Ev.readCfg (homeCfgPath hp) ∨ e = Ev.dialog := by
  intro e he
  rcases hcr : createSDKFromHomePath w kk hp pp s with ⟨ro, so, eo⟩
  rw [hcr] at he
  simp only at he
  unfold createSDKFromHomePath at hcr
  split at hcr <;>
    [skip; skip; skip;
     (split at hcr <;>
       [skip; (split at hcr <;> [skip; skip])])] <;>
    simp only [Prod.mk.injEq] at hcr <;>
    obtain ⟨-, -, h3⟩ := hcr <;>
    subst h3 <;>
    rcases displaySDKError_cases s with hd | hd <;>
    simp only [homeEv, hd, List.mem_append, List.mem_cons, List.mem_singleton,
      List.not_mem_nil, or_false] at he <;>
    tauto

/-- When `tryGetMonorepoSDK` yields a descriptor, that descriptor is of
`Internal` kind and the environment was never queried. -/
theorem tryGetMonorepoSDK_some_facts (w : World) (s : MgrState) (sdk : SDK)
    (s1 : MgrState) (evs : List Ev)
    (h : tryGetMonorepoSDK w s = (some sdk, s1, evs)) :
    sdk.kindOf = SDKKind.internal ∧ Ev.envQuery ∉ evs := by
  unfold tryGetMonorepoSDK at h
  split at h
  · exact absurd h (by simp)
  · split at h
    · exact absurd h (by simp)
    · split at h
      · simp only [Prod.mk.injEq] at h
        obtain ⟨h1, -, h3⟩ := h
        refine ⟨createSDKFromHomePath_kind _ _ _ _ _ _ h1, ?_⟩
        subst h3
        intro hm
        rcases List.mem_cons.mp hm with hh | hh
        · exact absurd hh (by simp)
        · rcases createSDKFromHomePath_ev _ _ _ _ _ _ hh with h' | h' | h' <;>
            simp at h'
      · exact absurd h (by simp)
  · exact absurd h (by simp)

/-- C1: the environment-change handler, called with a key equal to the last
observed key, leaves the cached descriptor, the last observed key and the
error-already-shown flag unchanged and fires no notification; called with a
different key it fires exactly one notification and resets the
error-already-shown flag, but it leaves the cached descriptor slot (and the
last observed key) unchanged — the cache is NOT cleared, contrary to the
claimed invalidation behaviour. -/
theorem c1_env_change_keeps_cached_descriptor :
    handleEnvironmentChange
        { displayedSDKError := true, lastLoadedEnv := some "/envs/a",
          activeSDK := some sdkA } "/envs/b"
      = ({ displayedSDKError := false, lastLoadedEnv := some "/envs/a",
           activeSDK := some sdkA }, [Ev.fire])
    ∧ handleEnvironmentChange
        { displayedSDKError := true, lastLoadedEnv := some "/envs/a",
          activeSDK := some sdkA } "/envs/a"
      = ({ displayedSDKError := true, lastLoadedEnv := some "/envs/a",
           activeSDK := some sdkA }, []) := by
  constructor
  · rfl
  · simp [handleEnvironmentChange]

/-- C2: a readable, decodable, INI-parsable `modular.cfg` whose `[mojo-max]`
section exists but lacks the required key `lsp_server_path` does NOT make
construction fail: `createSDKFromHomePath` returns a descriptor whose
`lsp_server_path` field is unset, and shows no error dialog. -/
theorem c2_missing_key_partial_descriptor :
    (createSDKFromHomePath wC2 SDKKind.environment "/root/max" none mgrInit).1
      = some (SDK.home SDKKind.environment "1.2.3" "/root/max"
          { lsp_server_path := none, mblack_path := some "/t/mblack",
            lldb_plugin_path := some "/t/plugin", lldb_vscode_path := some "/t/dap",
            driver_path := some "/t/mojo", lldb_visualizers_path := some "/t/viz",
            lldb_path := some "/t/lldb" } none)
    ∧ Ev.dialog ∉ (createSDKFromHomePath wC2 SDKKind.environment "/root/max" none mgrInit).2.2
    ∧ (createSDKFromHomePath wC2 SDKKind.environment "/root/max" none mgrInit).2.1
        = mgrInit := by
  refine ⟨by decide, by decide, by decide⟩

/-- C3: a successful workspace-local (monorepo) resolution is returned by
`findActiveSDK` as-is — it is of `Internal` kind and the active environment
is never consulted; the workspace-local source is attempted only when
exactly one workspace root is open; and a stat failure or a non-directory
`.derived` entry makes the workspace-local source fall through to the
active-environment part with no user-visible error. -/
theorem c3_monorepo_priority (w : World) (s : MgrState) :
    (∀ sdk s1 evs, tryGetMonorepoSDK w s = (some sdk, s1, evs) →
        findActiveSDK w s = (some sdk, s1, evs)
        ∧ sdk.kindOf = SDKKind.internal
        ∧ Ev.envQuery ∉ evs)
    ∧ (w.workspaceFolders = none → tryGetMonorepoSDK w s = (none, s, []))
    ∧ (∀ fs, w.workspaceFolders = some fs → fs.length ≠ 1 →
        tryGetMonorepoSDK w s = (none, s, []))
    ∧ (∀ f, w.workspaceFolders = some [f] →
        (w.stat (monorepoFolder f) = none ∨ w.stat (monorepoFolder f) = some false) →
        tryGetMonorepoSDK w s = (none, s, [Ev.statQuery (monorepoFolder f)])
        ∧ findActiveSDK w s
            = ((findActiveSDKEnvPart w s).1, (findActiveSDKEnvPart w s).2.1,
               Ev.statQuery (monorepoFolder f) :: (findActiveSDKEnvPart w s).2.2)
        ∧ Ev.dialog ∉ [Ev.statQuery (monorepoFolder f)]) := by
  refine ⟨?_, ?_, ?_, ?_⟩
  · intro sdk s1 evs h
    have hf := tryGetMonorepoSDK_some_facts w s sdk s1 evs h
    refine ⟨?_, hf.1, hf.2⟩
    unfold findActiveSDK
    rw [h]
  · intro hw
    unfold tryGetMonorepoSDK
    rw [hw]
  · intro fs hw hlen
    unfold tryGetMonorepoSDK
    rw [hw]
    match fs, hlen with
    | [], _ => rfl
    | [x], h => exact absurd rfl h
    | x :: y :: t, _ => rfl
  · intro f hw hstat
    have hmono : tryGetMonorepoSDK w s = (none, s, [Ev.statQuery (monorepoFolder f)]) := by
      rcases hstat with hstat | hstat <;> simp [tryGetMonorepoSDK, hw, hstat]
    refine ⟨hmono, ?_, by simp⟩
    unfold findActiveSDK
    rw [hmono]
    rfl

/-- C3 witness: in the concrete world `wMono` the monorepo SDK is found and
`findActiveSDK` returns it, of `Internal` kind, with no environment query. -/
theorem c3_monorepo_priority_witness :
    tryGetMonorepoSDK wMono mgrInit = (some sdkMono, mgrInit, evsMono)
    ∧ (findActiveSDK wMono mgrInit = (some sdkMono, mgrInit, evsMono)
       ∧ sdkMono.kindOf = SDKKind.internal
       ∧ Ev.envQuery ∉ evsMono) :=
  ⟨by decide, (c3_monorepo_priority wMono mgrInit).1 sdkMono mgrInit evsMono (by decide)⟩

/-- C4: if a call to the cached resolver `getActiveSDK` returns a descriptor,
an immediately following call (no intervening invalidation) returns the
identical descriptor with the state unchanged and an empty event list — no
filesystem or environment query of any kind is performed. -/
theorem c4_cache_stability (w : World) (s : MgrState) (d : SDK) (s' : MgrState)
    (evs : List Ev) (h : getActiveSDK w s = (some d, s', evs)) :
    getActiveSDK w s' = (some d, s', []) := by
  unfold getActiveSDK at h ⊢
  cases hs : s.activeSDK with
  | some sdk =>
      rw [hs] at h
      simp only [Prod.mk.injEq, Option.some.injEq] at h
      obtain ⟨h1, h2, -⟩ := h
      subst h1
      subst h2
      rw [hs]
  | none =>
      rw [hs] at h
      simp only [Prod.mk.injEq] at h
      obtain ⟨h1, h2, -⟩ := h
      subst h2
      simp only [h1]

/-- C4 witness: with a concrete cached state, both calls return the cached
descriptor. -/
theorem c4_cache_stability_witness :
    getActiveSDK wBase mgrCached = (some sdkA, mgrCached, [])
    ∧ getActiveSDK wBase mgrCached = (some sdkA, mgrCached, []) :=
  ⟨by decide, c4_cache_stability wBase mgrCached sdkA mgrCached [] (by decide)⟩

/-- Repeated failures from a state whose flag is already latched show no
further dialog and leave the state unchanged. -/
theorem runFails_latched (n : Nat) (s : MgrState) (h : s.displayedSDKError = true) :
    runFails s n = (s, 0) := by
  induction n with
  | zero => rfl
  | succ n ih =>
      unfold runFails
      simp [displaySDKError, h, ih]

/-- Closed form of `runFails` from an epoch start: at most one dialog is
shown, and only the flag changes. -/
theorem runFails_fresh (n : Nat) (s : MgrState) (h : s.displayedSDKError = false) :
    runFails s (n + 1) = ({ s with displayedSDKError := true }, 1) := by
  unfold runFails
  have hd : displaySDKError s = ({ s with displayedSDKError := true }, [Ev.dialog]) := by
    simp [displaySDKError, h]
  rw [hd]
  rw [runFails_latched n { s with displayedSDKError := true } rfl]
  rfl

/-- C5: from an epoch start (flag clear), any number of resolution failures
shows at most one dialog; an invalidation with a key differing from the last
observed key then resets the flag, and the next failure shows exactly one
more dialog. -/
theorem c5_error_suppression (s : MgrState) (n : Nat) (k : String)
    (hflag : s.displayedSDKError = false) (hk : s.lastLoadedEnv ≠ some k) :
    (runFails s n).2 ≤ 1
    ∧ (handleEnvironmentChange (runFails s n).1 k).1.displayedSDKError = false
    ∧ (displaySDKError (handleEnvironmentChange (runFails s n).1 k).1).2 = [Ev.dialog] := by
  have hrun : runFails s n = (s, 0)
      ∨ runFails s n = ({ s with displayedSDKError := true }, 1) := by
    cases n with
    | zero => exact Or.inl rfl
    | succ n => exact Or.inr (runFails_fresh n s hflag)
  have hne : ∀ s1 : MgrState, s1.lastLoadedEnv = s.lastLoadedEnv →
      handleEnvironmentChange s1 k = ({ s1 with displayedSDKError := false }, [Ev.fire]) := by
    intro s1 hs1
    unfold handleEnvironmentChange
    rw [if_pos]
    rw [hs1]
    exact fun hc => hk hc.symm
  rcases hrun with hrun | hrun <;> rw [hrun] <;> dsimp only
  · rw [hne s rfl]
    exact ⟨by simp, rfl, by simp [displaySDKError]⟩
  · rw [hne { s with displayedSDKError := true } rfl]
    exact ⟨by simp, rfl, by simp [displaySDKError]⟩

/-- C5 witness: three failures from a fresh state show one dialog in total;
after an invalidation with a new key the next failure shows one more. -/
theorem c5_error_suppression_witness :
    (mgrCached.displayedSDKError = false) ∧ (mgrCached.lastLoadedEnv ≠ some "/envs/b")
    ∧ ((runFails mgrCached 3).2 ≤ 1
       ∧ (handleEnvironmentChange (runFails mgrCached 3).1 "/envs/b").1.displayedSDKError = false
       ∧ (displaySDKError (handleEnvironmentChange (runFails mgrCached 3).1 "/envs/b").1).2
           = [Ev.dialog]) :=
  ⟨by decide, by decide, c5_error_suppression mgrCached 3 "/envs/b" (by decide) (by decide)⟩

/-- C6: the process environment of any descriptor always binds the telemetry
flag `MODULAR_TELEMETRY_ENABLED` to `true`/`false` per the argument; a
home-path descriptor additionally binds `MODULAR_HOME` to its home path and
the legacy `CONDA_PREFIX` to its stored prefix path, and nothing else; a
base (wheel) descriptor's environment consists of the telemetry flag only. -/
theorem c6_process_env (t : Bool) (k : SDKKind) (v hp : String) (hpaths : HomePaths)
    (pp : Option String) (v2 a b c d e f g : String) :
    (SDK.home k v hp hpaths pp).getProcessEnv t
      = [("MODULAR_TELEMETRY_ENABLED", some (if t then "true" else "false")),
         ("MODULAR_HOME", some hp), ("CONDA_PREFIX", pp)]
    ∧ (SDK.base k v2 a b c d e f g).getProcessEnv t
      = [("MODULAR_TELEMETRY_ENABLED", some (if t then "true" else "false"))]
    ∧ ∀ sdk : SDK, (sdk.getProcessEnv t).lookup "MODULAR_TELEMETRY_ENABLED"
        = some (some (if t then "true" else "false")) :=
  ⟨rfl, rfl, fun sdk => by cases sdk <;> rfl⟩

/-- C7: when the workspace-local source yields nothing and the ambient
environment cannot be resolved, `findActiveSDK` records the observed
environment key, shows an error dialog subject to per-epoch deduplication,
returns the not-found sentinel, and attempts neither home-path nor
packaged-distribution construction. -/
theorem c7_env_unresolvable_terminal (w : World) (s s1 : MgrState) (evs1 : List Ev)
    (hm : tryGetMonorepoSDK w s = (none, s1, evs1))
    (he : w.resolveEnv = none) :
    findActiveSDK w s
      = (none,
         { s1 with lastLoadedEnv := some w.activeEnvPath, displayedSDKError := true },
         evs1 ++ (if s1.displayedSDKError then [Ev.envQuery] else [Ev.envQuery, Ev.dialog]))
    ∧ (s1.displayedSDKError = false →
        Ev.dialog ∈ (if s1.displayedSDKError then [Ev.envQuery] else [Ev.envQuery, Ev.dialog]))
    ∧ (∀ kk hp, Ev.homeConstruct kk hp
        ∉ (if s1.displayedSDKError then [Ev.envQuery] else [Ev.envQuery, Ev.dialog]))
    ∧ Ev.wheelConstruct
        ∉ (if s1.displayedSDKError then [Ev.envQuery] else [Ev.envQuery, Ev.dialog]) := by
  obtain ⟨fl, ll, ak⟩ := s1
  have henv : findActiveSDKEnvPart w ⟨fl, ll, ak⟩
      = (none, { displayedSDKError := true, lastLoadedEnv := some w.activeEnvPath,
                 activeSDK := ak },
         if fl then [Ev.envQuery] else [Ev.envQuery, Ev.dialog]) := by
    unfold findActiveSDKEnvPart
    rw [he]
    cases fl <;> simp [displaySDKError, noteEnvLoaded]
  refine ⟨?_, ?_, ?_, ?_⟩
  · unfold findActiveSDK
    rw [hm]
    simp only
    rw [henv]
  · intro hfl
    have hfl' : fl = false := hfl
    subst hfl'
    simp
  · intro kk hp
    cases fl <;> simp
  · cases fl <;> simp

/-- C7 witness: in the bare world the environment is unresolvable; the
resolution shows one dialog and returns the not-found sentinel with no
construction attempted. -/
theorem c7_env_unresolvable_terminal_witness :
    tryGetMonorepoSDK wBase mgrInit = (none, mgrInit, [])
    ∧ wBase.resolveEnv = none
    ∧ (findActiveSDK wBase mgrInit
        = (none,
           { mgrInit with
             lastLoadedEnv := some wBase.activeEnvPath
             displayedSDKError := true },
           [] ++ (if mgrInit.displayedSDKError then [Ev.envQuery]
                  else [Ev.envQuery, Ev.dialog]))
       ∧ (mgrInit.displayedSDKError = false →
           Ev.dialog ∈ (if mgrInit.displayedSDKError then [Ev.envQuery]
                        else [Ev.envQuery, Ev.dialog]))
       ∧ (∀ kk hp, Ev.homeConstruct kk hp
           ∉ (if mgrInit.displayedSDKError then [Ev.envQuery]
              else [Ev.envQuery, Ev.dialog]))
       ∧ Ev.wheelConstruct
           ∉ (if mgrInit.displayedSDKError then [Ev.envQuery]
              else [Ev.envQuery, Ev.dialog])) :=
  ⟨by decide, rfl,
   c7_env_unresolvable_terminal wBase mgrInit mgrInit [] (by decide) rfl⟩

/-- C8: wheel construction fails with the not-found sentinel, and without any
error dialog, as soon as one of the eight required relative paths (with the
platform-suffixed plugin library) is missing; when every path exists, the
returned descriptor's version is the captured stdout of invoking the
resolved mojo executable with `--version`. -/
theorem c8_wheel_construction (w : World) (env : EnvRecord) :
    ((∃ t ∈ wheelTargets w env, w.stat t = none) →
        (createSDKFromWheelEnv w env).1 = none
        ∧ Ev.dialog ∉ (createSDKFromWheelEnv w env).2)
    ∧ ((∀ t ∈ wheelTargets w env, (w.stat t).isSome = true) →
        (createSDKFromWheelEnv w env).1
          = some (SDK.base SDKKind.environment
              (w.execVersionStdout (pathJoin [wheelBinPath env, "mojo"]))
              (pathJoin [wheelBinPath env, "mojo-lsp-server"])
              (pathJoin [wheelBinPath env, "mblack"])
              (pathJoin [wheelLibPath env, "libMojoLLDB." ++ wheelLibExt w])
              (pathJoin [wheelBinPath env, "lldb-dap"])
              (pathJoin [wheelBinPath env, "mojo"])
              (pathJoin [wheelLibPath env, "lldb-visualizers"])
              (pathJoin [wheelBinPath env, "mojo-lldb"]))
        ∧ Ev.execVersion (pathJoin [wheelBinPath env, "mojo"])
            ∈ (createSDKFromWheelEnv w env).2) := by
  constructor
  · rintro ⟨t, ht, hnone⟩
    simp only [wheelTargets, List.mem_cons, List.not_mem_nil, or_false] at ht
    rcases ht with rfl | rfl | rfl | rfl | rfl | rfl | rfl | rfl <;>
      refine ⟨?_, ?_⟩ <;>
      simp [createSDKFromWheelEnv, wheelEvs, wheelTargets, hnone]
  · intro hall
    have h1 : (w.stat (pathJoin [wheelBinPath env, "mojo"])).isSome = true :=
      hall _ (by simp [wheelTargets])
    have h2 : (w.stat (pathJoin [wheelBinPath env, "mojo-lsp-server"])).isSome = true :=
      hall _ (by simp [wheelTargets])
    have h3 : (w.stat (pathJoin [wheelLibPath env,
        "libMojoLLDB." ++ wheelLibExt w])).isSome = true :=
      hall _ (by simp [wheelTargets])
    have h4 : (w.stat (pathJoin [wheelBinPath env, "mblack"])).isSome = true :=
      hall _ (by simp [wheelTargets])
    have h5 : (w.stat (pathJoin [wheelBinPath env, "lldb-dap"])).isSome = true :=
      hall _ (by simp [wheelTargets])
    have h6 : (w.stat (pathJoin [wheelLibPath env, "lldb-visualizers"])).isSome = true :=
      hall _ (by simp [wheelTargets])
    have h7 : (w.stat (pathJoin [wheelBinPath env, "mojo-lldb"])).isSome = true :=
      hall _ (by simp [wheelTargets])
    have h8 : (w.stat (pathJoin [wheelLibPath env, "..", "bin", "mojo"])).isSome = true :=
      hall _ (by simp [wheelTargets])
    refine ⟨?_, ?_⟩ <;>
      simp [createSDKFromWheelEnv, wheelEvs, wheelTargets, h1, h2, h3, h4, h5, h6, h7, h8]

/-- C8 witness: with every stat succeeding, the wheel descriptor is built and
its version comes from the `--version` subprocess output. -/
theorem c8_wheel_construction_witness :
    (∀ t ∈ wheelTargets wWheel envC, (wWheel.stat t).isSome = true)
    ∧ ((createSDKFromWheelEnv wWheel envC).1
        = some (SDK.base SDKKind.environment
            (wWheel.execVersionStdout (pathJoin [wheelBinPath envC, "mojo"]))
            (pathJoin [wheelBinPath envC, "mojo-lsp-server"])
            (pathJoin [wheelBinPath envC, "mblack"])
            (pathJoin [wheelLibPath envC, "libMojoLLDB." ++ wheelLibExt wWheel])
            (pathJoin [wheelBinPath envC, "lldb-dap"])
            (pathJoin [wheelBinPath envC, "mojo"])
            (pathJoin [wheelLibPath envC, "lldb-visualizers"])
            (pathJoin [wheelBinPath envC, "mojo-lldb"]))
       ∧ Ev.execVersion (pathJoin [wheelBinPath envC, "mojo"])
           ∈ (createSDKFromWheelEnv wWheel envC).2) :=
  ⟨by decide, (c8_wheel_construction wWheel envC).2 (by decide)⟩

/-- C9: the uncached scripting probe returns `true` exactly when the LLDB
invocation succeeds with `101` occurring in its stdout, returns `false` when
the invocation throws, records exactly one subprocess invocation, and a
cached probe returns the cached value with no invocation at all. -/
theorem c9_lldb_probe (w : World) (p : String) :
    (lldbHasPythonScriptingSupport w p none).1 = lldbProbeResult w p
    ∧ ((lldbHasPythonScriptingSupport w p none).1 = true ↔
        ∃ out err, w.lldbExec p = some (out, err) ∧ strContainsSub out "101" = true)
    ∧ (w.lldbExec p = none → (lldbHasPythonScriptingSupport w p none).1 = false)
    ∧ (lldbHasPythonScriptingSupport w p none).2.2 = [Ev.lldbProbe p]
    ∧ (∀ b, lldbHasPythonScriptingSupport w p (some b) = (b, some b, [])) := by
  refine ⟨rfl, ?_, ?_, rfl, fun b => rfl⟩
  · unfold lldbHasPythonScriptingSupport lldbProbeResult
    cases hw : w.lldbExec p with
    | none => simp [hw]
    | some pr =>
        obtain ⟨out, err⟩ := pr
        simp [hw]
  · intro hw
    unfold lldbHasPythonScriptingSupport lldbProbeResult
    simp [hw]

/-- C9 witness: a failing invocation yields a `false` probe result. -/
theorem c9_lldb_probe_witness :
    wBase.lldbExec "/b/lldb" = none
    ∧ (lldbHasPythonScriptingSupport wBase "/b/lldb" none).1 = false :=
  ⟨rfl, (c9_lldb_probe wBase "/b/lldb").2.2.1 rfl⟩

/-- C10: for a non-empty document, a successful formatter run with empty
stdout resolves with the empty edit list, and no successful run ever
resolves with an edit whose replacement text is empty. -/
theorem c10_formatter_empty_output (docText : String) (h : docText.length > 0) :
    (∀ stderr, provideDocumentFormattingEdits docText (ExecOutcome.ok "" stderr) = some [])
    ∧ (∀ stdout stderr es,
        provideDocumentFormattingEdits docText (ExecOutcome.ok stdout stderr) = some es →
        ∀ t ∈ es, t ≠ "") := by
  constructor
  · intro stderr
    simp only [provideDocumentFormattingEdits]
    rw [if_pos ⟨h, rfl⟩]
  · intro stdout stderr es heq t ht hteq
    subst hteq
    simp only [provideDocumentFormattingEdits] at heq
    by_cases hz : stdout.length = 0
    · rw [if_pos ⟨h, hz⟩] at heq
      obtain rfl := Option.some.inj heq
      exact absurd ht (List.not_mem_nil _)
    · rw [if_neg (fun hc => hz hc.2)] at heq
      obtain rfl := Option.some.inj heq
      have hs : ("" : String) = stdout := List.mem_singleton.mp ht
      apply hz
      rw [← hs]
      rfl

/-- C10 witness: the non-empty document `"x"` with empty formatter output
resolves with no edits. -/
theorem c10_formatter_empty_output_witness :
    ("x".length > 0)
    ∧ ((∀ stderr, provideDocumentFormattingEdits "x" (ExecOutcome.ok "" stderr) = some [])
       ∧ (∀ stdout stderr es,
           provideDocumentFormattingEdits "x" (ExecOutcome.ok stdout stderr) = some es →
           ∀ t ∈ es, t ≠ "")) :=
  ⟨by decide, c10_formatter_empty_output "x" (by decide)⟩

end VscodeMojo
